import Mathlib

/-!
Verification of the incident-reporting chatbot (src/main.py) against its
natural-language specification.

The embedding models:
- the process-wide state (`app.message_history`, `app.system_information`);
- the index endpoint's reset behaviour (`api_index`);
- the onboarding form handler (`update_initial_information`);
- the prompt assembler (`prompt_template`, `mistral_messages`);
- the streaming relay (`empty_response`, `ai_response_generator`), with the
  upstream token stream given as a list of optional token contents and the
  relay's emissions modelled as explicit sequences of frames with the
  idle-heartbeat loop's timing made explicit.
-/

/-- One entry of `app.message_history` (class `MessageHistoryModel`,
field `message`). -/
structure MessageHistoryModel where
  message : String
deriving DecidableEq, Repr

/-- The `app.system_information` dict, holding the three onboarding answers
under the keys "Systems being used", "Initial Observations" and
"Initial Error messages". -/
structure SystemInformation where
  systemsBeingUsed : String
  initialObservations : String
  initialErrorMessages : String
deriving DecidableEq, Repr

/-- The process-wide mutable state of the app: the message history list and
the onboarding dict. -/
structure AppState where
  message_history : List MessageHistoryModel
  system_information : SystemInformation
deriving DecidableEq, Repr

/-- One role-tagged chat message sent to the LLM (class `ChatMessage` with
fields `role` and `content`). -/
structure ChatMessage where
  role : String
  content : String
deriving DecidableEq, Repr

/-- Modelled from the spec: JSON string escaping performed by the external
FastUI collaborator's `model_dump_json` serialization (the library itself is
not part of src/). -/
def jsonEscapeChar (ch : Char) : String :=
  if ch = '\"' then "\\\""
  else if ch = '\\' then "\\\\"
  else if ch = '\n' then "\\n"
  else if ch = '\r' then "\\r"
  else if ch = '\t' then "\\t"
  else ch.toString

/-- Modelled from the spec: JSON escaping of a whole string, used by the
external FastUI collaborator when serializing a component document. -/
def jsonEscape (s : String) : String :=
  String.join (s.toList.map jsonEscapeChar)

/-- Modelled from the spec: the external FastUI collaborator's JSON document
wrapping a single Markdown-text component with the given text
(`FastUI(root=[c.Markdown(text=output)]).model_dump_json(...)`). -/
def fastUIMarkdownJson (text : String) : String :=
  "[\x7b\"text\":\"" ++ jsonEscape text ++ "\",\"type\":\"Markdown\"\x7d]"

/-- An SSE frame as built in src/main.py lines 108 and 147:
`f'data: {m.model_dump_json(by_alias=True, exclude_none=True)}\n\n'`. -/
def renderFrame (output : String) : String :=
  "data: " ++ fastUIMarkdownJson output ++ "\n\n"

/-- `api_index` (src/main.py lines 41-43), restricted to its effect on the
process state: `if reset: app.message_history = []`.  The returned component
tree is the external UI collaborator's concern and carries no state. -/
def api_index (chat : Option String) (reset : Bool) (st : AppState) : AppState :=
  if reset then { st with message_history := [] } else st

/-- `update_initial_information` (src/main.py lines 90-93): overwrites the
three onboarding fields unconditionally. -/
def update_initial_information (st : AppState)
    (systems_used initial_observations initial_errors : String) : AppState :=
  { st with system_information :=
      { systemsBeingUsed := systems_used
        initialObservations := initial_observations
        initialErrorMessages := initial_errors } }

/-- The fixed system instruction (src/main.py line 119). -/
def system_message : String :=
  "Your job is to help software developers and system engineers to fix and report major incidents for their systems."

/-- The history-folding prompt template (src/main.py lines 124-127):
start from `"Previous messages:\n"`, append every history message followed by
a newline, then append `"Human: " + prompt`. -/
def prompt_template (prompt : String) (history : List MessageHistoryModel) : String :=
  (history.foldl (fun acc m => acc ++ m.message ++ "\n") "Previous messages:\n")
    ++ "Human: " ++ prompt

/-- The message list sent to the LLM (src/main.py lines 129-138). -/
def mistral_messages (prompt : String) (st : AppState) : List ChatMessage :=
  [{ role := "system", content := system_message },
   { role := "assistant", content := "What systems are you using for your Application?" },
   { role := "user", content := st.system_information.systemsBeingUsed },
   { role := "assistant", content := "What are your initial observations for you incident?" },
   { role := "user", content := st.system_information.initialObservations },
   { role := "assistant", content := "Have you had any initial error messages?" },
   { role := "user", content := st.system_information.initialErrorMessages },
   { role := "user", content := prompt_template prompt st.message_history }]

/-- The value of `output` on entry to the streaming loop
(src/main.py lines 121 and 140):
`output = f"**User:** {prompt}\n\n"` then `output += f"**Chatbot:** "`. -/
def initialOutput (prompt : String) : String :=
  "**User:** " ++ prompt ++ "\n\n" ++ "**Chatbot:** "

/-- The loop-carried variables of `ai_response_generator`: the accumulated
`output`, the last built frame `msg` (initially the empty string, line 122),
and the list of frames yielded so far. -/
structure StreamAcc where
  output : String
  msg : String
  frames : List String
deriving DecidableEq, Repr

/-- One iteration of the token loop (src/main.py lines 141-148).  A chunk's
`delta.content` may be absent (`none`) or a string; the source computes
`token := chunk.choices[0].delta.content or ""` and proceeds only if `token`
is non-empty, in which case it appends the token to `output`, rebuilds `msg`
as a frame rendering the whole `output`, and yields it. -/
def processChunk (acc : StreamAcc) (chunk : Option String) : StreamAcc :=
  let token := chunk.getD ""
  if token = "" then acc
  else
    let output := acc.output ++ token
    let msg := renderFrame output
    { output := output, msg := msg, frames := acc.frames ++ [msg] }

/-- The whole token loop of `ai_response_generator` run on an upstream token
sequence, starting from the initial `output` and empty `msg`. -/
def processStream (prompt : String) (tokens : List (Option String)) : StreamAcc :=
  tokens.foldl processChunk { output := initialOutput prompt, msg := "", frames := [] }

/-- The observable result of one run of `ai_response_generator`: the content
frames yielded during generation and the `msg` value that the idle-heartbeat
loop (src/main.py lines 153-155) re-emits forever. -/
structure GenResult where
  frames : List String
  heartbeatMsg : String
deriving DecidableEq, Repr

/-- `ai_response_generator` (src/main.py lines 116-155) as a function of the
prompt, the state, and the upstream token sequence: runs the token loop,
appends `MessageHistoryModel(message=output)` to the history (lines 150-151),
and enters the idle-heartbeat loop with the final `msg`. -/
def ai_response_generator (prompt : String) (st : AppState)
    (tokens : List (Option String)) : GenResult × AppState :=
  let acc := processStream prompt tokens
  ({ frames := acc.frames, heartbeatMsg := acc.msg },
   { st with message_history := st.message_history ++ [{ message := acc.output }] })

/-- The full emission sequence of `ai_response_generator`: the n-th yielded
frame is the n-th content frame while the stream is active, and afterwards
every emission is the heartbeat re-emission of `msg`. -/
def generator_emission (g : GenResult) (n : Nat) : String :=
  if h : n < g.frames.length then g.frames.get ⟨n, h⟩ else g.heartbeatMsg

/-- Time of the k-th emission of the idle-heartbeat loop
(`while True: yield msg; await asyncio.sleep(10)`, src/main.py lines 111-113
and 153-155), measured from entry into the loop: the loop yields immediately
on entry and sleeps 10 time-units after each yield. -/
def idleLoopTime : Nat → Nat
  | 0 => 0
  | k + 1 => idleLoopTime k + 10

/-- The frame built once by `empty_response` (src/main.py lines 107-108): a
rendering of empty content. -/
def empty_response_msg : String :=
  renderFrame ""

/-- The emission sequence of `empty_response` (src/main.py lines 105-113):
one yield of `msg` before the loop, then the idle-heartbeat loop re-yielding
the same `msg`. -/
def empty_response_emission (n : Nat) : String :=
  match n with
  | 0 => empty_response_msg
  | _ + 1 => empty_response_msg

/-- Emission times of `empty_response`: the pre-loop yield happens at time 0
and the loop is entered immediately afterwards, so the k-th loop emission
happens at `idleLoopTime k`. -/
def empty_response_emissionTime (n : Nat) : Nat :=
  match n with
  | 0 => 0
  | k + 1 => idleLoopTime k

/-- `sse_ai_response` (src/main.py lines 98-102): route to the empty-response
generator when the prompt is absent, empty, or the literal text "None",
otherwise to the active-generation path. -/
inductive RelayPath where
  | emptyPath
  | activePath
deriving DecidableEq, Repr

/-- The dispatch performed by `sse_ai_response` (src/main.py lines 100-102). -/
def sse_ai_response (prompt : Option String) : RelayPath :=
  match prompt with
  | none => .emptyPath
  | some p => if p = "" ∨ p = "None" then .emptyPath else .activePath

/-- Running a sequence of active-generation requests (prompt plus its
upstream token sequence) one after another, with no reset in between: each
run threads the state through `ai_response_generator`. -/
def runPrompts (st : AppState) (runs : List (String × List (Option String))) : AppState :=
  runs.foldl (fun s r => (ai_response_generator r.1 s r.2).2) st

/-- The spec's description of the final message body's history part: every
prior history message in insertion order, each followed by a newline. -/
def historyReplay : List MessageHistoryModel → String
  | [] => ""
  | m :: ms => m.message ++ "\n" ++ historyReplay ms

/-- The history fold of `prompt_template` equals its seed followed by the
in-order replay of the history. -/
theorem foldl_history_replay (l : List MessageHistoryModel) (acc : String) :
    l.foldl (fun a m => a ++ m.message ++ "\n") acc = acc ++ historyReplay l := by
  induction l generalizing acc with
  | nil => exact (String.append_empty acc).symm
  | cons m ms ih =>
    rw [List.foldl_cons, ih, historyReplay]
    simp [String.append_assoc]

/-- Closed form of `prompt_template`. -/
theorem prompt_template_closed (p : String) (hist : List MessageHistoryModel) :
    prompt_template p hist
      = "Previous messages:\n" ++ historyReplay hist ++ "Human: " ++ p := by
  unfold prompt_template
  rw [foldl_history_replay]

/-- Loop invariant of the token loop: the last yielded frame, when one
exists, is exactly the current `msg`, and `msg` is the empty string while no
frame has been yielded yet. -/
theorem foldl_msg_inv (tokens : List (Option String)) (acc : StreamAcc)
    (h : acc.frames.getLast?.getD "" = acc.msg) :
    (tokens.foldl processChunk acc).frames.getLast?.getD ""
      = (tokens.foldl processChunk acc).msg := by
  induction tokens generalizing acc with
  | nil => exact h
  | cons t ts ih =>
    rw [List.foldl_cons]
    refine ih _ ?_
    by_cases hc : t.getD "" = ""
    · simpa [processChunk, hc] using h
    · simp [processChunk, hc, List.getLast?_concat]

/-- The token loop only ever extends `output` on the right. -/
theorem foldl_output_extend (tokens : List (Option String)) (acc : StreamAcc) :
    ∃ s, (tokens.foldl processChunk acc).output = acc.output ++ s := by
  induction tokens generalizing acc with
  | nil => exact ⟨"", (String.append_empty _).symm⟩
  | cons t ts ih =>
    rw [List.foldl_cons]
    obtain ⟨s, hs⟩ := ih (processChunk acc t)
    by_cases hc : t.getD "" = ""
    · exact ⟨s, by simpa [processChunk, hc] using hs⟩
    · refine ⟨t.getD "" ++ s, ?_⟩
      rw [hs]
      simp [processChunk, hc, String.append_assoc]

/-- A token sequence whose every chunk has empty or absent content leaves the
loop state untouched. -/
theorem foldl_all_empty (tokens : List (Option String)) (acc : StreamAcc)
    (h : ∀ t ∈ tokens, t.getD "" = "") :
    tokens.foldl processChunk acc = acc := by
  induction tokens generalizing acc with
  | nil => rfl
  | cons t ts ih =>
    rw [List.foldl_cons]
    have ht := h t (List.mem_cons_self t ts)
    rw [show processChunk acc t = acc from by simp [processChunk, ht]]
    exact ih acc fun x hx => h x (List.mem_cons_of_mem t hx)

/-- Running a list of prompts appends, in order, one history entry per run,
holding that run's final `output`. -/
theorem runPrompts_history (runs : List (String × List (Option String))) (st : AppState) :
    (runPrompts st runs).message_history
      = st.message_history
        ++ runs.map (fun r =>
            ({ message := (processStream r.1 r.2).output } : MessageHistoryModel)) := by
  induction runs generalizing st with
  | nil => simp [runPrompts]
  | cons r rs ih =>
    rw [runPrompts, List.foldl_cons]
    rw [show List.foldl (fun s r => (ai_response_generator r.1 s r.2).2)
          ((ai_response_generator r.1 st r.2).2) rs
        = runPrompts ((ai_response_generator r.1 st r.2).2) rs from rfl]
    rw [ih]
    simp [ai_response_generator]

/-- When at least one content frame was yielded, the heartbeat payload `msg`
is the last content frame. -/
theorem generator_heartbeatMsg_getLast (p : String) (st : AppState)
    (tokens : List (Option String))
    (h : (processStream p tokens).frames ≠ []) :
    (processStream p tokens).frames.getLast?
      = some ((ai_response_generator p st tokens).1.heartbeatMsg) := by
  have hinv := foldl_msg_inv tokens
      { output := initialOutput p, msg := "", frames := [] } rfl
  rcases e : (processStream p tokens).frames.getLast? with _ | x
  · exact absurd (List.getLast?_eq_none_iff.mp e) h
  · have hx : x = (processStream p tokens).msg := by
      have : ((processStream p tokens).frames.getLast?).getD ""
          = (processStream p tokens).msg := hinv
      rw [e] at this
      simpa using this
    rw [hx]
    rfl

/-- A rendered frame is never the empty string. -/
theorem renderFrame_ne_empty (s : String) : renderFrame s ≠ "" := by
  intro hcon
  have h1 : (renderFrame s).length = 0 := by rw [hcon]; rfl
  have h2 : (renderFrame s).length
      = "data: ".length + (fastUIMarkdownJson s).length + "\n\n".length := by
    simp [renderFrame, String.length_append]
  have h3 : "data: ".length = 6 := rfl
  have h4 : "\n\n".length = 2 := rfl
  omega

/-- C1: in the active-generation path, every token with non-empty content is
appended to the accumulated output and yields exactly one frame rendering the
entire accumulated output, every token with empty or absent content yields no
frame, and on the upstream sequence ["Hello", "", " world"] exactly two
content frames are emitted, the second rendering the first's output with
" world" appended (accumulation, not delta). -/
theorem relay_accumulates_per_token (prompt t : String) (acc : StreamAcc) :
    (t ≠ "" →
      processChunk acc (some t) =
        { output := acc.output ++ t, msg := renderFrame (acc.output ++ t),
          frames := acc.frames ++ [renderFrame (acc.output ++ t)] }) ∧
    processChunk acc (some "") = acc ∧
    processChunk acc none = acc ∧
    (processStream prompt [some "Hello", some "", some " world"]).frames =
      [renderFrame (initialOutput prompt ++ "Hello"),
       renderFrame ((initialOutput prompt ++ "Hello") ++ " world")] := by
  refine ⟨?_, ?_, ?_, ?_⟩
  · intro ht
    simp [processChunk, ht]
  · simp [processChunk]
  · simp [processChunk]
  · show ([some "Hello", some "", some " world"].foldl processChunk
      { output := initialOutput prompt, msg := "", frames := [] }).frames = _
    rw [List.foldl_cons, List.foldl_cons, List.foldl_cons, List.foldl_nil]
    rw [show processChunk { output := initialOutput prompt, msg := "", frames := [] }
          (some "Hello")
        = { output := initialOutput prompt ++ "Hello",
            msg := renderFrame (initialOutput prompt ++ "Hello"),
            frames := [renderFrame (initialOutput prompt ++ "Hello")] } from by
      simp [processChunk]]
    rw [show processChunk
          { output := initialOutput prompt ++ "Hello",
            msg := renderFrame (initialOutput prompt ++ "Hello"),
            frames := [renderFrame (initialOutput prompt ++ "Hello")] } (some "")
        = { output := initialOutput prompt ++ "Hello",
            msg := renderFrame (initialOutput prompt ++ "Hello"),
            frames := [renderFrame (initialOutput prompt ++ "Hello")] } from by
      simp [processChunk]]
    simp [processChunk]

/-- Witness for C1 at concrete inputs. -/
theorem relay_accumulates_per_token_witness :
    processChunk { output := "a", msg := "", frames := [] } (some "b") =
      { output := "a" ++ "b", msg := renderFrame ("a" ++ "b"),
        frames := [] ++ [renderFrame ("a" ++ "b")] } :=
  (relay_accumulates_per_token "p" "b"
    { output := "a", msg := "", frames := [] }).1 (by decide)

/-- C2: the Prompt Assembler's final user-role message content is the literal
"Previous messages:\n", then each prior history message in insertion order
each followed by a newline, then "Human: " plus the prompt; for history
["X", "Y"] and prompt "Z" it equals "Previous messages:\nX\nY\nHuman: Z". -/
theorem prompt_assembler_final_message (prompt : String) (st : AppState) :
    (mistral_messages prompt st).getLast? =
      some { role := "user",
             content := "Previous messages:\n" ++ historyReplay st.message_history
               ++ "Human: " ++ prompt } ∧
    prompt_template "Z" [{ message := "X" }, { message := "Y" }]
      = "Previous messages:\nX\nY\nHuman: Z" := by
  constructor
  · rw [show mistral_messages prompt st =
        [{ role := "system", content := system_message },
         { role := "assistant", content := "What systems are you using for your Application?" },
         { role := "user", content := st.system_information.systemsBeingUsed },
         { role := "assistant", content := "What are your initial observations for you incident?" },
         { role := "user", content := st.system_information.initialObservations },
         { role := "assistant", content := "Have you had any initial error messages?" },
         { role := "user", content := st.system_information.initialErrorMessages }]
        ++ [{ role := "user", content := prompt_template prompt st.message_history }] from rfl]
    rw [List.getLast?_concat]
    rw [prompt_template_closed]
  · rfl

/-- C3: the Prompt Assembler always produces exactly eight role-tagged
messages, in the fixed order: system instruction; then for systems used,
observations and errors, a fixed assistant question followed by a user
message holding that onboarding field's current value; then the final
user-role history-plus-prompt message. -/
theorem prompt_assembler_eight_messages (prompt : String) (st : AppState) :
    (mistral_messages prompt st).length = 8 ∧
    (mistral_messages prompt st).map ChatMessage.role =
      ["system", "assistant", "user", "assistant", "user", "assistant", "user", "user"] ∧
    (mistral_messages prompt st).map ChatMessage.content =
      [system_message,
       "What systems are you using for your Application?",
       st.system_information.systemsBeingUsed,
       "What are your initial observations for you incident?",
       st.system_information.initialObservations,
       "Have you had any initial error messages?",
       st.system_information.initialErrorMessages,
       prompt_template prompt st.message_history] :=
  ⟨rfl, rfl, rfl⟩

/-- C4: a prompt that is absent, empty, or the literal "None" is routed to
the empty-prompt path, whose first frame renders empty text and whose every
subsequent frame is byte-identical to the first, indefinitely. -/
theorem empty_prompt_routes_to_empty_path (p : Option String)
    (h : p = none ∨ p = some "" ∨ p = some "None") :
    sse_ai_response p = RelayPath.emptyPath ∧
    empty_response_emission 0 = renderFrame "" ∧
    ∀ n, empty_response_emission n = empty_response_emission 0 := by
  refine ⟨?_, rfl, ?_⟩
  · rcases h with h | h | h <;> subst h <;> rfl
  · intro n
    cases n <;> rfl

/-- Witness for C4 at the empty-string prompt. -/
theorem empty_prompt_routes_to_empty_path_witness :
    sse_ai_response (some "") = RelayPath.emptyPath ∧
    empty_response_emission 0 = renderFrame "" ∧
    ∀ n, empty_response_emission n = empty_response_emission 0 :=
  empty_prompt_routes_to_empty_path (some "") (Or.inr (Or.inl rfl))


/-- A concrete app state with empty history and blank onboarding fields, used
by the witnesses below. -/
def freshState : AppState :=
  { message_history := [],
    system_information :=
      { systemsBeingUsed := "", initialObservations := "", initialErrorMessages := "" } }

/-- C5: after the active-generation stream completes normally, every
subsequently emitted frame is byte-identical to the last content frame
emitted during generation, and the heartbeat re-emissions recur at a fixed
10-time-unit interval for every iteration (the loop never terminates). -/
theorem heartbeat_replays_last_frame (prompt : String) (st : AppState)
    (tokens : List (Option String))
    (h : (ai_response_generator prompt st tokens).1.frames ≠ []) :
    (∀ n, (ai_response_generator prompt st tokens).1.frames.length ≤ n →
      (ai_response_generator prompt st tokens).1.frames.getLast?
        = some (generator_emission (ai_response_generator prompt st tokens).1 n)) ∧
    ∀ k, idleLoopTime (k + 1) = idleLoopTime k + 10 := by
  constructor
  · intro n hn
    have hem : generator_emission (ai_response_generator prompt st tokens).1 n
        = (ai_response_generator prompt st tokens).1.heartbeatMsg := by
      unfold generator_emission
      rw [dif_neg (by omega)]
    rw [hem]
    exact generator_heartbeatMsg_getLast prompt st tokens h
  · intro k
    rfl

/-- Witness for C5: a one-token stream from the fresh state. -/
theorem heartbeat_replays_last_frame_witness :
    (∀ n, (ai_response_generator "p" freshState [some "A"]).1.frames.length ≤ n →
      (ai_response_generator "p" freshState [some "A"]).1.frames.getLast?
        = some (generator_emission (ai_response_generator "p" freshState [some "A"]).1 n)) ∧
    ∀ k, idleLoopTime (k + 1) = idleLoopTime k + 10 :=
  heartbeat_replays_last_frame "p" freshState [some "A"] (by decide)

/-- C6: for prompts P1..Pn submitted without reset starting from an empty
history, after all streams complete the history has exactly n entries, and
the i-th entry's message starts with "**User:** " followed by Pi. -/
theorem history_tracks_prompts (st : AppState)
    (runs : List (String × List (Option String)))
    (h : st.message_history = []) :
    (runPrompts st runs).message_history.length = runs.length ∧
    ∀ i (hi : i < runs.length), ∃ rest,
      ((runPrompts st runs).message_history.getD i { message := "" }).message
        = "**User:** " ++ (runs.get ⟨i, hi⟩).1 ++ rest := by
  have hh := runPrompts_history runs st
  rw [h, List.nil_append] at hh
  constructor
  · rw [hh, List.length_map]
  · intro i hi
    obtain ⟨s, hs⟩ := foldl_output_extend (runs.get ⟨i, hi⟩).2
      { output := initialOutput (runs.get ⟨i, hi⟩).1, msg := "", frames := [] }
    refine ⟨"\n\n" ++ "**Chatbot:** " ++ s, ?_⟩
    have hlt : i < (runs.map (fun r =>
        ({ message := (processStream r.1 r.2).output } : MessageHistoryModel))).length := by
      rw [List.length_map]
      exact hi
    rw [hh, List.getD_eq_getElem _ _ hlt, List.getElem_map]
    show (processStream (runs.get ⟨i, hi⟩).1 (runs.get ⟨i, hi⟩).2).output = _
    rw [show processStream (runs.get ⟨i, hi⟩).1 (runs.get ⟨i, hi⟩).2
        = (runs.get ⟨i, hi⟩).2.foldl processChunk
            { output := initialOutput (runs.get ⟨i, hi⟩).1, msg := "", frames := [] }
      from rfl]
    rw [hs]
    simp [initialOutput, String.append_assoc]

/-- Witness for C6: two prompts run back-to-back from the fresh state. -/
theorem history_tracks_prompts_witness :
    (runPrompts freshState [("P1", [some "A"]), ("P2", [none])]).message_history.length
      = [("P1", [some "A"]), ("P2", [none])].length ∧
    ∀ i (hi : i < [("P1", [some "A"]), ("P2", [none])].length), ∃ rest,
      ((runPrompts freshState
          [("P1", [some "A"]), ("P2", [none])]).message_history.getD i
            { message := "" }).message
        = "**User:** " ++ ([("P1", [some "A"]), ("P2", [none])].get ⟨i, hi⟩).1 ++ rest :=
  history_tracks_prompts freshState [("P1", [some "A"]), ("P2", [none])] rfl

/-- C7: submitting reset=true to the index operation clears the history to
empty whatever its prior length, leaves all three onboarding fields
unchanged, and with reset false the index operation leaves the whole state
unchanged. -/
theorem reset_clears_history_only (st : AppState) (chat : Option String) :
    (api_index chat true st).message_history = [] ∧
    (api_index chat true st).system_information = st.system_information ∧
    api_index chat false st = st :=
  ⟨rfl, rfl, rfl⟩

/-- C8: every operation either leaves the history unchanged, fully clears it,
or appends a single entry at the end, so insertion order is preserved; and
the Prompt Assembler replays the history into a new prompt exclusively in
insertion order. -/
theorem history_insertion_order_invariant (st : AppState) (chat : Option String)
    (r : Bool) (s o e p : String) (tokens : List (Option String))
    (hist : List MessageHistoryModel) :
    ((api_index chat r st).message_history = st.message_history ∨
      (api_index chat r st).message_history = []) ∧
    (update_initial_information st s o e).message_history = st.message_history ∧
    (∃ entry, (ai_response_generator p st tokens).2.message_history
        = st.message_history ++ [entry]) ∧
    prompt_template p hist
      = "Previous messages:\n" ++ historyReplay hist ++ "Human: " ++ p := by
  refine ⟨?_, rfl, ⟨{ message := (processStream p tokens).output }, rfl⟩, ?_⟩
  · cases r
    · exact Or.inl rfl
    · exact Or.inr rfl
  · exact prompt_template_closed p hist

/-- C9: if the upstream stream completes normally with zero non-empty
tokens, the active-generation path still appends one history entry whose
message is exactly "**User:** " + prompt + "\n\n**Chatbot:** ", no content
frame is ever sent, and every heartbeat frame emitted afterwards is the
empty string — never a rendered event frame, since no rendered frame is the
empty string. -/
theorem empty_stream_bare_history_entry (p : String) (st : AppState)
    (tokens : List (Option String)) (h : ∀ t ∈ tokens, t.getD "" = "") :
    (ai_response_generator p st tokens).2.message_history
      = st.message_history
        ++ [{ message := "**User:** " ++ p ++ "\n\n**Chatbot:** " }] ∧
    (ai_response_generator p st tokens).1.frames = [] ∧
    (ai_response_generator p st tokens).1.heartbeatMsg = "" ∧
    (∀ n, generator_emission (ai_response_generator p st tokens).1 n = "") ∧
    ∀ s, renderFrame s ≠ "" := by
  have hps : processStream p tokens
      = { output := initialOutput p, msg := "", frames := [] } :=
    foldl_all_empty tokens _ h
  have hio : initialOutput p = "**User:** " ++ p ++ "\n\n**Chatbot:** " := by
    unfold initialOutput
    rw [String.append_assoc]
    rw [show ("\n\n" ++ "**Chatbot:** " : String) = "\n\n**Chatbot:** " from rfl]
  have hfr : (ai_response_generator p st tokens).1.frames = [] := by
    show (processStream p tokens).frames = []
    rw [hps]
  refine ⟨?_, hfr, ?_, ?_, renderFrame_ne_empty⟩
  · show st.message_history ++ [{ message := (processStream p tokens).output }] = _
    rw [hps, hio]
  · show (processStream p tokens).msg = ""
    rw [hps]
  · intro n
    have hnc : ¬ n < (ai_response_generator p st tokens).1.frames.length := by
      rw [hfr]
      simp
    unfold generator_emission
    rw [dif_neg hnc]
    show (processStream p tokens).msg = ""
    rw [hps]

/-- Witness for C9: a stream of one empty-content and one absent-content
chunk, run from the fresh state. -/
theorem empty_stream_bare_history_entry_witness :
    (ai_response_generator "q" freshState [some "", none]).2.message_history
      = freshState.message_history
        ++ [{ message := "**User:** " ++ "q" ++ "\n\n**Chatbot:** " }] ∧
    (ai_response_generator "q" freshState [some "", none]).1.frames = [] ∧
    (ai_response_generator "q" freshState [some "", none]).1.heartbeatMsg = "" ∧
    (∀ n, generator_emission (ai_response_generator "q" freshState [some "", none]).1 n
      = "") ∧
    ∀ s, renderFrame s ≠ "" :=
  empty_stream_bare_history_entry "q" freshState [some "", none] (by decide)

/-- C10: in both relay paths the idle-heartbeat loop emits its first frame
immediately on entry (before any 10-time-unit wait) and waits 10 time-units
only after each emission, so the frame already sent before the loop is
immediately duplicated once: in the empty-prompt path the first loop
emission repeats the pre-loop frame at the same instant, and in the
active-generation path the first post-stream emission equals the last
content frame. -/
theorem idle_loop_first_emission_immediate (p : String) (st : AppState)
    (tokens : List (Option String)) :
    idleLoopTime 0 = 0 ∧
    (∀ k, idleLoopTime (k + 1) = idleLoopTime k + 10) ∧
    empty_response_emissionTime 1 = empty_response_emissionTime 0 ∧
    empty_response_emission 1 = empty_response_emission 0 ∧
    ((processStream p tokens).frames ≠ [] →
      (processStream p tokens).frames.getLast?
        = some (generator_emission (ai_response_generator p st tokens).1
            (processStream p tokens).frames.length)) := by
  refine ⟨rfl, fun k => rfl, rfl, rfl, ?_⟩
  intro h
  have hem : generator_emission (ai_response_generator p st tokens).1
      (processStream p tokens).frames.length
      = (ai_response_generator p st tokens).1.heartbeatMsg := by
    unfold generator_emission
    rw [dif_neg]
    show ¬ (processStream p tokens).frames.length < (processStream p tokens).frames.length
    omega
  rw [hem]
  exact generator_heartbeatMsg_getLast p st tokens h

/-- Witness for C10: a one-token stream from the fresh state; the first
post-stream emission is the single content frame. -/
theorem idle_loop_first_emission_immediate_witness :
    (processStream "p" [some "A"]).frames.getLast?
      = some (generator_emission (ai_response_generator "p" freshState [some "A"]).1
          (processStream "p" [some "A"]).frames.length) :=
  (idle_loop_first_emission_immediate "p" freshState [some "A"]).2.2.2.2 (by decide)
